import Mathlib

/-!
# Reflow oven firmware: command handler and thermal simulation

A shallow embedding of `Firmware/main/reflowOven_esp32.c`:

* the global oven variables (`current_temp`, `target_temp`, `oven_status`,
  `cycle_timer`, `is_reflowing`, `active_profile`) become one record `OvenState`;
* `send_status`, `handle_command` and one iteration of the loop of
  `oven_simulator_task` become functions on that record;
* the C library calls used by `handle_command` (`strncpy`, `strchr`, `strcmp`,
  `strstr`, `sscanf`) are modelled on lists of characters.

Modelling conventions.

* Temperatures (`float` in the source) are exact rationals: binary32 rounding,
  infinities and NaN are not represented.  Every constant of the source
  (25.0, 2.5, 2.0, 0.05, 0.0) is taken at its decimal value.
* `int` is a 32-bit two's complement integer, represented by `Int`; the only
  arithmetic on it, `cycle_timer--`, wraps (`wrap_int`).
* `oven_status` only ever holds one of six string literals; it is represented by
  the enumeration `Phase`, whose `Phase.name` gives the literal back.  The
  comparison with `"ERROR"` in the simulator is therefore always false.
* A reply is the tuple of values `send_status` hands to `snprintf`; `tx_buffer` is
  the text formatted from it, `%.1f` rounding the rational value to tenths.
* `sscanf` follows the C standard for the directives used; `%f` reads decimal
  numerals (sign, digits, point, exponent), a `%d` that does not fit is clamped
  as `strtol` does.  The spellings of infinity and NaN have no rational value and
  are not read.
* The two tasks are interleaved at the level of whole steps: one iteration of the
  simulator loop, or one call of `handle_command`, is one `Event`.
-/

namespace ReflowOven

/-! ## Data model -/

/-- The structure for a reflow profile (`reflow_profile_t`). -/
structure reflow_profile_t where
  soak_temp : ℚ
  soak_time : Int
  reflow_peak : ℚ
  reflow_time : Int
deriving DecidableEq

/-- The six string values that `oven_status` takes in the source. -/
inductive Phase where
  | IDLE
  | HEATING
  | SOAKING
  | REFLOWING
  | COOLING
  | COMPLETE
deriving DecidableEq

/-- The string literal stored in `oven_status` for each phase. -/
def Phase.name : Phase → String
  | .IDLE => "IDLE"
  | .HEATING => "HEATING"
  | .SOAKING => "SOAKING"
  | .REFLOWING => "REFLOWING"
  | .COOLING => "COOLING"
  | .COMPLETE => "COMPLETE"

/-- The global state variables of the firmware. -/
structure OvenState where
  current_temp : ℚ
  target_temp : ℚ
  oven_status : Phase
  cycle_timer : Int
  is_reflowing : Bool
  active_profile : reflow_profile_t
deriving DecidableEq

/-- The initial values of the global state variables. -/
def initial_state : OvenState where
  current_temp := 25
  target_temp := 0
  oven_status := .IDLE
  cycle_timer := 0
  is_reflowing := false
  active_profile := ⟨0, 0, 0, 0⟩

/-- Heating rate per tick (`#define HEAT_RATE 2.5`). -/
def HEAT_RATE : ℚ := 5 / 2

/-- Cooling rate per tick (`#define COOL_RATE 2.0`). -/
def COOL_RATE : ℚ := 2

/-- Smallest value of a 32-bit `int`. -/
def INT_MIN : Int := -2147483648

/-- Largest value of a 32-bit `int`. -/
def INT_MAX : Int := 2147483647

/-- Reduction of an integer to the 32-bit two's complement range. -/
def wrap_int (z : Int) : Int := (z + 2147483648) % 4294967296 - 2147483648

/-! ## Status reply -/

/-- The values that `send_status` formats into one `STATUS;...` line:
current temperature, target temperature, status string and cycle timer. -/
structure StatusReply where
  current_temp : ℚ
  target_temp : ℚ
  oven_status : String
  cycle_timer : Int
deriving DecidableEq

/-- The reply built by `send_status` from the global state. -/
def send_status (s : OvenState) : StatusReply where
  current_temp := s.current_temp
  target_temp := s.target_temp
  oven_status := s.oven_status.name
  cycle_timer := s.cycle_timer

/-- The characters of a C string held in a buffer: everything before the first NUL. -/
def c_string (buf : List Char) : List Char := buf.takeWhile (fun c => c ≠ '\x00')

/-- The effect of `p = strchr(buf, ch); if (p) *p = 0`: the string is cut at the first `ch`. -/
def cut_at (ch : Char) (buf : List Char) : List Char := buf.takeWhile (fun c => c ≠ ch)

/-- White space in the sense of `isspace` (C locale). -/
def isspace (c : Char) : Bool :=
  c = ' ' || c = '\t' || c = '\n' || c = '\x0b' || c = '\x0c' || c = '\r'

/-- Decimal digits in the sense of `isdigit`. -/
def isdigit (c : Char) : Bool := c.isDigit

/-- White space skipped in front of a `%d` or `%f` conversion. -/
def skip_space (inp : List Char) : List Char := inp.dropWhile isspace

/-- Value of a run of decimal digits. -/
def decimal_value (ds : List Char) : Nat :=
  ds.foldl (fun acc c => 10 * acc + (c.toNat - 48)) 0

/-- An optional sign: `true` for a minus sign, and the input after it. -/
def scan_sign : List Char → Bool × List Char
  | '-' :: rest => (true, rest)
  | '+' :: rest => (false, rest)
  | inp => (false, inp)

/-- The result of `strtol` on a sign and a magnitude: out-of-range values are
clamped to `INT_MIN` / `INT_MAX` (`long` is 32 bits wide on the target). -/
def strtol_value (neg : Bool) (n : Nat) : Int :=
  if neg then max (-(n : Int)) INT_MIN else min (n : Int) INT_MAX

/-- The `%d` conversion: skip white space, read an optional sign and a nonempty
run of decimal digits.  Returns the value and the unread input. -/
def scan_int (inp : List Char) : Option (Int × List Char) :=
  let (neg, body) := scan_sign (skip_space inp)
  let ds := body.takeWhile isdigit
  if ds = [] then none else some (strtol_value neg (decimal_value ds), body.dropWhile isdigit)

/-- The exponent part of a floating-point number: `e` or `E`, an optional sign and
a nonempty run of digits.  When that is not what follows, nothing is consumed
and the exponent is 0. -/
def scan_exponent : List Char → Int × List Char
  | c :: rest =>
    if c = 'e' ∨ c = 'E' then
      let (neg, body) := scan_sign rest
      let ds := body.takeWhile isdigit
      if ds = [] then (0, c :: rest)
      else ((if neg then -(decimal_value ds : Int) else (decimal_value ds : Int)),
            body.dropWhile isdigit)
    else (0, c :: rest)
  | [] => (0, [])

/-- The fraction digits after the integer part: a decimal point followed by a
(possibly empty) run of digits. -/
def scan_fraction : List Char → List Char × List Char
  | '.' :: rest => (rest.takeWhile isdigit, rest.dropWhile isdigit)
  | inp => ([], inp)

/-- The digits of a floating-point number after its sign: digits with an optional
decimal point (at least one digit in all) and an optional exponent.  Returns the
magnitude and the unread input. -/
def scan_magnitude (body : List Char) : Option (ℚ × List Char) :=
  let ip := body.takeWhile isdigit
  let (fp, after) := scan_fraction (body.dropWhile isdigit)
  if ip = [] ∧ fp = [] then none
  else
    let (ex, rest) := scan_exponent after
    some ((decimal_value (ip ++ fp) : ℚ) / (10 : ℚ) ^ fp.length * (10 : ℚ) ^ ex, rest)

/-- The `%f` conversion on decimal input: skip white space, read an optional sign
and a magnitude.  Returns the value and the unread input. -/
def scan_float (inp : List Char) : Option (ℚ × List Char) :=
  let (neg, body) := scan_sign (skip_space inp)
  (scan_magnitude body).map (fun (m, rest) => ((if neg then -m else m), rest))

/-- An ordinary character of a format string: the next input character must be
that character. -/
def scan_literal (ch : Char) : List Char → Option (List Char)
  | c :: rest => if c = ch then some rest else none
  | [] => none

/-- The text `START;`. -/
def START_literal : List Char := ['S', 'T', 'A', 'R', 'T', ';']

/-- The outcome of `sscanf(clean_buffer, "START;%f;%d;%f;%d", ...)`: the return
value and the four output variables, which keep their initial value -1 when
they are not assigned. -/
structure StartScan where
  match_count : Int
  soak_temp_in : ℚ
  soak_time_in : Int
  reflow_peak_in : ℚ
  reflow_time_in : Int
deriving DecidableEq

/-- Return value of `sscanf` when the directive after the literal prefix fails on
input `inp`: `EOF` (-1) when the input has run out, else 0 items. -/
def first_failure (inp : List Char) : Int := if skip_space inp = [] then -1 else 0

/-- The four conversions of `START;%f;%d;%f;%d` after the literal prefix. -/
def scan_START_fields (inp : List Char) : StartScan :=
  match scan_float inp with
  | none => ⟨first_failure inp, -1, -1, -1, -1⟩
  | some (a, r1) =>
    match (scan_literal ';' r1).bind scan_int with
    | none => ⟨1, a, -1, -1, -1⟩
    | some (b, r2) =>
      match (scan_literal ';' r2).bind scan_float with
      | none => ⟨2, a, b, -1, -1⟩
      | some (c, r3) =>
        match (scan_literal ';' r3).bind scan_int with
        | none => ⟨3, a, b, c, -1⟩
        | some (d, _) => ⟨4, a, b, c, d⟩

/-- The call `sscanf(clean_buffer, "START;%f;%d;%f;%d", ...)`. -/
def sscanf_START (clean_buffer : List Char) : StartScan :=
  if START_literal.isPrefixOf clean_buffer then scan_START_fields (clean_buffer.drop 6)
  else ⟨(if clean_buffer.isPrefixOf START_literal then -1 else 0), -1, -1, -1, -1⟩

/-! ## The command handler -/

/-- The local copy made by `handle_command`: at most 127 characters of the
received string, cut at the first line feed and then at the first carriage return. -/
def clean (rx_buffer : List Char) : List Char :=
  cut_at '\r' (cut_at '\n' ((c_string rx_buffer).take 127))

/-- The function `handle_command`: the new global state and the status replies sent. -/
def handle_command (s : OvenState) (rx_buffer : List Char) : OvenState × List StatusReply :=
  let clean_buffer := clean rx_buffer
  if clean_buffer = ['S', 'T', 'A', 'T', 'U', 'S', '?'] then
    (s, [send_status s])
  else if clean_buffer = ['S', 'T', 'O', 'P'] then
    let s1 : OvenState :=
      if s.oven_status ≠ .IDLE ∧ s.oven_status ≠ .COMPLETE then
        { s with oven_status := .COOLING, target_temp := 25, is_reflowing := false,
                 cycle_timer := 0 }
      else s
    (s1, [send_status s1])
  else if START_literal.isPrefixOf clean_buffer then
    let r := sscanf_START clean_buffer
    if r.match_count = 4 then
      let s1 : OvenState :=
        { s with active_profile := ⟨r.soak_temp_in, r.soak_time_in, r.reflow_peak_in,
                                     r.reflow_time_in⟩,
                 target_temp := r.soak_temp_in, oven_status := .HEATING,
                 is_reflowing := true, cycle_timer := 0 }
      (s1, [send_status s1])
    else (s, [])
  else (s, [])

/-! ## The simulation tick -/

/-- One iteration of the loop of `oven_simulator_task` (the code before `vTaskDelay`). -/
def oven_simulator_tick (s : OvenState) : OvenState :=
  if s.oven_status ≠ .IDLE ∧ s.oven_status ≠ .COMPLETE then
    if s.current_temp < s.target_temp then
      let heated := s.current_temp + HEAT_RATE
      if heated ≥ s.target_temp then
        if s.oven_status = .HEATING then
          { s with current_temp := s.target_temp, oven_status := .SOAKING,
                   cycle_timer := s.active_profile.soak_time }
        else if s.oven_status = .REFLOWING then
          { s with current_temp := s.target_temp, oven_status := .COOLING, target_temp := 25 }
        else { s with current_temp := s.target_temp }
      else { s with current_temp := heated }
    else if s.oven_status = .SOAKING then
      let t1 := if s.current_temp > s.target_temp then s.current_temp - 1 / 20 else s.current_temp
      let t2 := if t1 < s.target_temp then t1 + 1 / 20 else t1
      let timer := wrap_int (s.cycle_timer - 1)
      if timer ≤ 0 then
        { s with current_temp := t2, cycle_timer := timer, oven_status := .REFLOWING,
                 target_temp := s.active_profile.reflow_peak }
      else { s with current_temp := t2, cycle_timer := timer }
    else if s.current_temp > 25 ∧ s.oven_status = .COOLING then
      let cooled := s.current_temp - COOL_RATE
      if cooled ≤ 25 then
        { s with current_temp := 25, oven_status := .COMPLETE, is_reflowing := false,
                 target_temp := 0 }
      else { s with current_temp := cooled }
    else if s.oven_status = .COOLING ∧ s.current_temp > 25 then
      { s with current_temp := s.current_temp - COOL_RATE }
    else s
  else s

/-- The loop of `oven_simulator_task` run for `n` iterations. -/
def oven_simulator_task : Nat → OvenState → OvenState
  | 0, s => s
  | n + 1, s => oven_simulator_task n (oven_simulator_tick s)

/-! ## Interleaving of the two tasks -/

/-- What can happen to the global state: the simulator task runs one iteration,
or the server task handles one received buffer. -/
inductive Event where
  | tick
  | command (rx_buffer : List Char)

/-- The effect of one event on the global state. -/
def step (s : OvenState) : Event → OvenState
  | .tick => oven_simulator_tick s
  | .command rx_buffer => (handle_command s rx_buffer).1

/-- The effect of a sequence of events, oldest first. -/
def run (s : OvenState) (events : List Event) : OvenState := events.foldl step s

/-! ## The START grammar of the specification

The second definition of a START line, written from the protocol grammar
`START;<soak_temp:float>;<soak_time:int>;<reflow_peak:float>;<reflow_time:int>`:
exactly five semicolon-separated fields, the first one `START`, the others plain
decimal numerals with an optional sign, no white space and nothing after the
fourth number; the integers fit a 32-bit `int`. -/

/-- The pieces of a line between semicolons. -/
def split_fields : List Char → List (List Char)
  | [] => [[]]
  | c :: cs =>
    if c = ';' then [] :: split_fields cs
    else
      match split_fields cs with
      | [] => [[c]]
      | f :: fs => (c :: f) :: fs

/-- The line terminators a client may append to a command. -/
def line_endings : List (List Char) := [[], ['\n'], ['\r', '\n'], ['\r']]

/-- Number of ticks the cooling needs to bring a temperature down to 25.0. -/
def cool_ticks (temp : ℚ) : Nat := ⌈(temp - 25) / COOL_RATE⌉₊

/-- The relation between status, temperatures and profile that every event keeps:
the current temperature is at least 25.0 and the target is the one the status
stands for; while SOAKING the current temperature is at the target. -/
def Consistent (s : OvenState) : Prop :=
  25 ≤ s.current_temp ∧
  (s.oven_status = .IDLE ∨ s.oven_status = .COMPLETE → s.target_temp = 0) ∧
  (s.oven_status = .HEATING ∨ s.oven_status = .SOAKING →
    s.target_temp = s.active_profile.soak_temp) ∧
  (s.oven_status = .SOAKING → s.current_temp = s.target_temp) ∧
  (s.oven_status = .REFLOWING → s.target_temp = s.active_profile.reflow_peak) ∧
  (s.oven_status = .COOLING → s.target_temp = 25)

/-! ## Lists of characters -/

theorem takeWhile_ne_of_not_mem (ch : Char) (a b : List Char) (ha : ch ∉ a) :
    (a ++ b).takeWhile (fun c => c ≠ ch) = a ++ b.takeWhile (fun c => c ≠ ch) := by
  induction a with
  | nil => simp
  | cons x xs ih =>
    have hx : x ≠ ch := fun h => ha (by simp [h])
    have := ih (fun h => ha (List.mem_cons_of_mem _ h))
    simp only [List.cons_append, List.takeWhile_cons, ne_eq, hx, not_false_eq_true, decide_True]
    simpa using this


theorem split_fields_no_semicolon (l : List Char) : ∀ f ∈ split_fields l, ';' ∉ f := by
  induction l with
  | nil => simp [split_fields]
  | cons c cs ih =>
    unfold split_fields
    split
    · intro f hf
      simp at hf
      rcases hf with rfl | hf
      · simp
      · exact ih f hf
    · rename_i hc
      cases hs : split_fields cs with
      | nil => simp; exact fun h => hc h.symm
      | cons g gs =>
        rw [hs] at ih
        intro f hf
        simp at hf
        rcases hf with rfl | hf
        · simp
          exact ⟨fun h => hc h.symm, ih g (by simp)⟩
        · exact ih f (by simp [hf])

theorem task_succ (n : Nat) (s : OvenState) :
    oven_simulator_task (n + 1) s = oven_simulator_tick (oven_simulator_task n s) := by
  induction n generalizing s with
  | zero => rfl
  | succ n ih =>
    show oven_simulator_task (n + 1) (oven_simulator_tick s) = _
    rw [ih]
    rfl

theorem task_fixed (s : OvenState) (h : oven_simulator_tick s = s) (n : Nat) :
    oven_simulator_task n s = s := by
  induction n with
  | zero => rfl
  | succ n ih => rw [task_succ, ih, h]

theorem cool_above (s : OvenState) (hph : s.oven_status = .COOLING) (ht : s.target_temp ≤ 25)
    (k : Nat) (hk : 25 < s.current_temp - 2 * k) :
    oven_simulator_task k s = { s with current_temp := s.current_temp - 2 * k } := by
  induction k with
  | zero => simp [oven_simulator_task]
  | succ k ih =>
    have hk' : 25 < s.current_temp - 2 * (k : ℚ) := by
      push_cast at hk
      linarith
    rw [task_succ, ih hk']
    have hnlt : ¬ (s.current_temp - 2 * (k : ℚ) < s.target_temp) := by
      intro h
      linarith
    have hnot : ¬ (s.current_temp - 2 * (k : ℚ) - 2 ≤ 25) := by
      push_cast at hk
      intro hge
      linarith
    simp only [oven_simulator_tick, COOL_RATE, hph, ne_eq, reduceCtorEq, not_false_eq_true,
      and_self, if_true, hnlt, if_false, gt_iff_lt, hk', and_true, hnot]
    congr 1
    push_cast
    ring

theorem cool_ticks_pos (temp : ℚ) (h : 25 < temp) : 0 < cool_ticks temp := by
  unfold cool_ticks COOL_RATE
  rw [Nat.ceil_pos]
  apply div_pos
  · linarith
  · norm_num

theorem cool_ticks_before (temp : ℚ) (k : Nat) (hk : k < cool_ticks temp) :
    25 < temp - 2 * k := by
  unfold cool_ticks COOL_RATE at hk
  rw [Nat.lt_ceil, lt_div_iff₀ (by norm_num)] at hk
  linarith

theorem cool_ticks_reach (temp : ℚ) : temp - 2 * (cool_ticks temp : ℚ) ≤ 25 := by
  have h := Nat.le_ceil ((temp - 25) / COOL_RATE)
  unfold COOL_RATE at h
  rw [div_le_iff₀ (by norm_num)] at h
  unfold cool_ticks COOL_RATE
  linarith

theorem cooling_arrival (s : OvenState) (hph : s.oven_status = .COOLING)
    (ht : s.target_temp ≤ 25) (hgt : 25 < s.current_temp) :
    oven_simulator_task (cool_ticks s.current_temp) s =
      { s with current_temp := 25, oven_status := .COMPLETE, is_reflowing := false,
               target_temp := 0 } := by
  have hpos := cool_ticks_pos s.current_temp hgt
  have hb := cool_ticks_before s.current_temp (cool_ticks s.current_temp - 1) (by omega)
  have hr := cool_ticks_reach s.current_temp
  have hn : cool_ticks s.current_temp = (cool_ticks s.current_temp - 1) + 1 := by omega
  have hc : ((cool_ticks s.current_temp : Nat) : ℚ)
      = ((cool_ticks s.current_temp - 1 : Nat) : ℚ) + 1 := by
    conv_lhs => rw [hn]
    push_cast
    rfl
  rw [hc] at hr
  conv_lhs => rw [hn]
  rw [task_succ, cool_above s hph ht _ hb]
  have hnlt : ¬ (s.current_temp - 2 * ((cool_ticks s.current_temp - 1 : Nat) : ℚ)
      < s.target_temp) := by
    intro h
    linarith
  have hle : s.current_temp - 2 * ((cool_ticks s.current_temp - 1 : Nat) : ℚ) - 2 ≤ 25 := by
    linarith
  simp only [oven_simulator_tick, COOL_RATE, hph, ne_eq, reduceCtorEq, not_false_eq_true,
    and_self, if_true, hnlt, if_false, gt_iff_lt, hb, and_true, hle]

theorem tick_idle_or_complete (s : OvenState)
    (h : s.oven_status = .IDLE ∨ s.oven_status = .COMPLETE) : oven_simulator_tick s = s := by
  rcases h with h | h <;> simp [oven_simulator_tick, h]

theorem tick_cooling_at_floor (s : OvenState) (hph : s.oven_status = .COOLING)
    (ht : s.target_temp ≤ s.current_temp) (hc : s.current_temp ≤ 25) :
    oven_simulator_tick s = s := by
  have h1 : ¬ (s.current_temp < s.target_temp) := not_lt.mpr ht
  have h2 : ¬ (s.current_temp > 25) := not_lt.mpr hc
  simp [oven_simulator_tick, hph, h1, h2]

theorem handle_command_STOP_active (s : OvenState) (h1 : s.oven_status ≠ .IDLE)
    (h2 : s.oven_status ≠ .COMPLETE) :
    (handle_command s ['S', 'T', 'O', 'P']).1 =
      { s with oven_status := .COOLING, target_temp := 25, is_reflowing := false,
               cycle_timer := 0 } := by
  have hclean : clean ['S', 'T', 'O', 'P'] = ['S', 'T', 'O', 'P'] := by decide
  simp [handle_command, hclean, h1, h2]

theorem stop_then_cooling_completes (s : OvenState) (h1 : s.oven_status ≠ .IDLE)
    (h2 : s.oven_status ≠ .COMPLETE) (hgt : 25 < s.current_temp) :
    oven_simulator_task (cool_ticks s.current_temp) (handle_command s ['S', 'T', 'O', 'P']).1 =
      { s with current_temp := 25, oven_status := .COMPLETE, is_reflowing := false,
               target_temp := 0, cycle_timer := 0 } := by
  rw [handle_command_STOP_active s h1 h2]
  exact cooling_arrival
    { s with oven_status := .COOLING, target_temp := 25, is_reflowing := false, cycle_timer := 0 }
    rfl (le_refl (25 : ℚ)) hgt

/-! ## An invariant of all reachable states -/

theorem consistent_initial : Consistent initial_state := by
  refine ⟨le_refl _, ?_, ?_, ?_, ?_, ?_⟩ <;> simp [initial_state]

theorem consistent_handle_command (s : OvenState) (rx_buffer : List Char) (h : Consistent s) :
    Consistent (handle_command s rx_buffer).1 := by
  obtain ⟨h25, hidle, hheat, hsoak, hreflow, hcool⟩ := h
  unfold handle_command
  simp only
  split
  · exact ⟨h25, hidle, hheat, hsoak, hreflow, hcool⟩
  · split
    · split
      · refine ⟨h25, ?_, ?_, ?_, ?_, ?_⟩ <;> simp
      · exact ⟨h25, hidle, hheat, hsoak, hreflow, hcool⟩
    · split
      · split
        · refine ⟨h25, ?_, ?_, ?_, ?_, ?_⟩ <;> simp
        · exact ⟨h25, hidle, hheat, hsoak, hreflow, hcool⟩
      · exact ⟨h25, hidle, hheat, hsoak, hreflow, hcool⟩

theorem consistent_tick (s : OvenState) (h : Consistent s) :
    Consistent (oven_simulator_tick s) := by
  obtain ⟨h25, hidle, hheat, hsoak, hreflow, hcool⟩ := h
  cases hph : s.oven_status
  · rw [tick_idle_or_complete s (Or.inl hph)]
    exact ⟨h25, hidle, hheat, hsoak, hreflow, hcool⟩
  · -- HEATING
    have ht := hheat (Or.inl hph)
    unfold oven_simulator_tick
    simp only [HEAT_RATE, COOL_RATE]
    by_cases hlt : s.current_temp < s.target_temp
    · by_cases hge : s.current_temp + 5 / 2 ≥ s.target_temp
      · simp only [hph, hlt, hge, ne_eq, reduceCtorEq, not_false_eq_true, and_self, if_true]
        refine ⟨?_, ?_, ?_, ?_, ?_, ?_⟩
        · show 25 ≤ s.target_temp
          linarith
        all_goals simp [ht]
      · simp only [hph, hlt, hge, ne_eq, reduceCtorEq, not_false_eq_true, and_self, if_true,
          if_false]
        refine ⟨?_, ?_, ?_, ?_, ?_, ?_⟩
        · show 25 ≤ s.current_temp + 5 / 2
          linarith
        all_goals simp [hph, ht]
    · simp only [hph, hlt, ne_eq, reduceCtorEq, not_false_eq_true, and_self, if_true, if_false,
        and_false]
      refine ⟨h25, ?_, ?_, ?_, ?_, ?_⟩ <;> simp [hph, ht]
  · -- SOAKING
    have ht := hheat (Or.inr hph)
    have hc := hsoak hph
    have hnlt : ¬ (s.current_temp < s.target_temp) := by rw [hc]; exact lt_irrefl _
    have hngt : ¬ (s.current_temp > s.target_temp) := by rw [hc]; exact lt_irrefl _
    unfold oven_simulator_tick
    simp only [hph, hnlt, hngt, ne_eq, reduceCtorEq, not_false_eq_true, and_self, if_true,
      if_false]
    split
    · refine ⟨h25, ?_, ?_, ?_, ?_, ?_⟩ <;> simp
    · refine ⟨h25, ?_, ?_, ?_, ?_, ?_⟩ <;> simp [hph, ht, hc]
  · -- REFLOWING
    have ht := hreflow hph
    unfold oven_simulator_tick
    simp only [HEAT_RATE, COOL_RATE]
    by_cases hlt : s.current_temp < s.target_temp
    · by_cases hge : s.current_temp + 5 / 2 ≥ s.target_temp
      · simp only [hph, hlt, hge, ne_eq, reduceCtorEq, not_false_eq_true, and_self, if_true,
          if_false]
        refine ⟨?_, ?_, ?_, ?_, ?_, ?_⟩
        · show 25 ≤ s.target_temp
          linarith
        all_goals simp
      · simp only [hph, hlt, hge, ne_eq, reduceCtorEq, not_false_eq_true, and_self, if_true,
          if_false]
        refine ⟨?_, ?_, ?_, ?_, ?_, ?_⟩
        · show 25 ≤ s.current_temp + 5 / 2
          linarith
        all_goals simp [hph, ht]
    · simp only [hph, hlt, ne_eq, reduceCtorEq, not_false_eq_true, and_self, if_true, if_false,
        and_false]
      refine ⟨h25, ?_, ?_, ?_, ?_, ?_⟩ <;> simp [hph, ht]
  · -- COOLING
    have ht := hcool hph
    have hnlt : ¬ (s.current_temp < s.target_temp) := by rw [ht]; exact not_lt.mpr h25
    unfold oven_simulator_tick
    simp only [HEAT_RATE, COOL_RATE]
    by_cases hgt : s.current_temp > 25
    · by_cases hle : s.current_temp - 2 ≤ 25
      · simp only [hph, hnlt, hgt, hle, ne_eq, reduceCtorEq, not_false_eq_true, and_self,
          if_true, if_false]
        refine ⟨le_refl _, ?_, ?_, ?_, ?_, ?_⟩ <;> simp
      · simp only [hph, hnlt, hgt, hle, ne_eq, reduceCtorEq, not_false_eq_true, and_self,
          if_true, if_false]
        refine ⟨?_, ?_, ?_, ?_, ?_, ?_⟩
        · show 25 ≤ s.current_temp - 2
          linarith
        all_goals simp [hph, ht]
    · simp only [hph, hnlt, hgt, ne_eq, reduceCtorEq, not_false_eq_true, and_self, if_true,
        if_false, false_and, and_false]
      refine ⟨h25, ?_, ?_, ?_, ?_, ?_⟩ <;> simp [hph, ht]
  · rw [tick_idle_or_complete s (Or.inr hph)]
    exact ⟨h25, hidle, hheat, hsoak, hreflow, hcool⟩

theorem consistent_run (events : List Event) (s : OvenState) (h : Consistent s) :
    Consistent (run s events) := by
  induction events generalizing s with
  | nil => exact h
  | cons e es ih =>
    apply ih
    cases e with
    | tick => exact consistent_tick s h
    | command rx => exact consistent_handle_command s rx h

theorem consistent_reachable (events : List Event) : Consistent (run initial_state events) :=
  consistent_run events initial_state consistent_initial

/-! ## The status text fits its buffer -/

theorem cut_take_append (ch : Char) (c r : List Char) (hc : ch ∉ c) :
    ∀ n : Nat, cut_at ch ((c ++ ch :: r).take n) = c.take n := by
  induction c with
  | nil =>
    intro n
    cases n with
    | zero => simp [cut_at]
    | succ n => simp [cut_at, List.takeWhile]
  | cons x xs ih =>
    intro n
    have hx : x ≠ ch := fun h => hc (by simp [h])
    have hxs : ch ∉ xs := fun h => hc (List.mem_cons_of_mem _ h)
    cases n with
    | zero => simp [cut_at]
    | succ n =>
      have := ih hxs n
      simp only [cut_at] at this ⊢
      simp only [List.cons_append, List.take_succ_cons, List.takeWhile_cons, ne_eq, hx,
        not_false_eq_true, decide_True, if_true]
      rw [this]

theorem cut_at_of_not_mem (ch : Char) (c : List Char) (hc : ch ∉ c) : cut_at ch c = c := by
  have := takeWhile_ne_of_not_mem ch c [] hc
  simpa [cut_at] using this

theorem c_string_append (c t : List Char) (ht : '\x00' ∉ t) :
    c_string (c ++ t) = c_string c ++ (if '\x00' ∈ c then [] else t) := by
  induction c with
  | nil =>
    have := cut_at_of_not_mem '\x00' t ht
    simpa [c_string, cut_at] using this
  | cons x xs ih =>
    by_cases hx : x = '\x00'
    · subst hx
      simp [c_string, List.takeWhile]
    · have hx' : ¬ ('\x00' = x) := fun h => hx h.symm
      simp only [c_string] at ih ⊢
      simp only [List.cons_append, List.takeWhile_cons, ne_eq, hx, not_false_eq_true,
        decide_True, if_true, List.mem_cons, hx', false_or]
      rw [ih]

theorem not_mem_take (ch : Char) (c : List Char) (n : Nat) (hc : ch ∉ c) : ch ∉ c.take n :=
  fun h => hc (List.mem_of_mem_take h)

theorem not_mem_c_string (ch : Char) (c : List Char) (hc : ch ∉ c) : ch ∉ c_string c :=
  fun h => hc ((List.takeWhile_prefix _).subset h)

theorem clean_line_ending (c : List Char) (hn : '\n' ∉ c) (hr : '\r' ∉ c) :
    clean (c ++ ['\n']) = clean c ∧ clean (c ++ ['\r', '\n']) = clean c := by
  have hdn : '\n' ∉ c_string c := not_mem_c_string _ _ hn
  have hdr : '\r' ∉ c_string c := not_mem_c_string _ _ hr
  have hbase : clean c = (c_string c).take 127 := by
    unfold clean
    rw [cut_at_of_not_mem _ _ (not_mem_take _ _ _ hdn),
      cut_at_of_not_mem _ _ (not_mem_take _ _ _ hdr)]
  by_cases h0 : '\x00' ∈ c
  · constructor
    · unfold clean
      rw [c_string_append c ['\n'] (by decide), if_pos h0, List.append_nil]
    · unfold clean
      rw [c_string_append c ['\r', '\n'] (by decide), if_pos h0, List.append_nil]
  · constructor
    · rw [hbase]
      unfold clean
      rw [c_string_append c ['\n'] (by decide), if_neg h0,
        cut_take_append '\n' (c_string c) [] hdn 127,
        cut_at_of_not_mem _ _ (not_mem_take _ _ _ hdr)]
    · rw [hbase]
      unfold clean
      rw [c_string_append c ['\r', '\n'] (by decide), if_neg h0]
      have hsplit : c_string c ++ ['\r', '\n'] = (c_string c ++ ['\r']) ++ '\n' :: [] := by simp
      have hmem : '\n' ∉ c_string c ++ ['\r'] := by
        simp only [List.mem_append, List.mem_singleton, not_or]
        exact ⟨hdn, by decide⟩
      rw [hsplit, cut_take_append '\n' (c_string c ++ ['\r']) [] hmem 127,
        cut_take_append '\r' (c_string c) [] hdr 127]

theorem handle_command_clean (s : OvenState) (a b : List Char) (h : clean a = clean b) :
    handle_command s a = handle_command s b := by
  unfold handle_command
  simp only [h]

theorem handle_command_line_ending (s : OvenState) (c : List Char) (hn : '\n' ∉ c)
    (hr : '\r' ∉ c) :
    handle_command s (c ++ ['\n']) = handle_command s c ∧
    handle_command s (c ++ ['\r', '\n']) = handle_command s c :=
  ⟨handle_command_clean s _ _ (clean_line_ending c hn hr).1,
   handle_command_clean s _ _ (clean_line_ending c hn hr).2⟩

theorem wrap_int_pred (m : Int) (hlo : INT_MIN < m) (hhi : m ≤ INT_MAX) :
    wrap_int (m - 1) = m - 1 := by
  unfold INT_MIN at hlo
  unfold INT_MAX at hhi
  unfold wrap_int
  omega

theorem tick_soaking_hold (s : OvenState) (hph : s.oven_status = .SOAKING)
    (hat : s.current_temp = s.target_temp) (hlo : INT_MIN < s.cycle_timer)
    (hhi : s.cycle_timer ≤ INT_MAX) :
    oven_simulator_tick s =
      if s.cycle_timer - 1 ≤ 0 then
        { s with cycle_timer := s.cycle_timer - 1, oven_status := .REFLOWING,
                 target_temp := s.active_profile.reflow_peak }
      else { s with cycle_timer := s.cycle_timer - 1 } := by
  have hnlt : ¬ (s.current_temp < s.target_temp) := by rw [hat]; exact lt_irrefl _
  have hngt : ¬ (s.current_temp > s.target_temp) := by rw [hat]; exact lt_irrefl _
  unfold oven_simulator_tick
  simp only [hph, hnlt, hngt, ne_eq, reduceCtorEq, not_false_eq_true, and_self, if_true,
    if_false, wrap_int_pred _ hlo hhi]

theorem soaking_countdown (s : OvenState) (hph : s.oven_status = .SOAKING)
    (hat : s.current_temp = s.target_temp) (hhi : s.cycle_timer ≤ INT_MAX) :
    ∀ k : Nat, (k : Int) < s.cycle_timer →
      oven_simulator_task k s = { s with cycle_timer := s.cycle_timer - k } := by
  intro k
  induction k with
  | zero =>
    intro _
    simp [oven_simulator_task]
  | succ k ih =>
    intro hk
    have hk' : (k : Int) < s.cycle_timer := by push_cast at hk; omega
    rw [task_succ, ih hk']
    have hlo : INT_MIN < s.cycle_timer - k := by unfold INT_MIN; push_cast at hk; omega
    have hhi' : s.cycle_timer - k ≤ INT_MAX := by omega
    rw [tick_soaking_hold { s with cycle_timer := s.cycle_timer - k } hph hat hlo hhi']
    have hpos : ¬ (s.cycle_timer - (k : Int) - 1 ≤ 0) := by push_cast at hk; omega
    simp only [hpos, if_false]
    congr 1
    push_cast
    ring

/-! ## Command handler: START and STOP -/

/-- C2: for every oven state, the line `STOP` (with or without a line terminator)
leaves the whole state unchanged when the status is IDLE or COMPLETE, and
otherwise sets the status to COOLING, the target temperature to 25.0 and the
cycle timer to 0, keeping the current temperature and the active profile; in
both cases exactly one status line, built from the resulting state, is sent. -/
theorem stop_command (s : OvenState) (term : List Char) (hterm : term ∈ line_endings) :
    handle_command s (['S', 'T', 'O', 'P'] ++ term) =
      if s.oven_status = .IDLE ∨ s.oven_status = .COMPLETE then (s, [send_status s])
      else ({ s with oven_status := .COOLING, target_temp := 25, is_reflowing := false,
                     cycle_timer := 0 },
            [⟨s.current_temp, 25, "COOLING", 0⟩]) := by
  have hclean : clean (['S', 'T', 'O', 'P'] ++ term) = ['S', 'T', 'O', 'P'] := by
    simp only [line_endings, List.mem_cons, List.mem_singleton, List.not_mem_nil, or_false] at hterm
    rcases hterm with rfl | rfl | rfl | rfl <;> decide
  unfold handle_command
  simp only [hclean]
  by_cases h : s.oven_status = .IDLE ∨ s.oven_status = .COMPLETE
  · have h2 : ¬ (s.oven_status ≠ .IDLE ∧ s.oven_status ≠ .COMPLETE) := by
      rcases h with h | h <;> simp [h]
    simp [h, h2]
  · have h2 : s.oven_status ≠ .IDLE ∧ s.oven_status ≠ .COMPLETE := by
      push_neg at h
      exact h
    simp [h, h2, send_status, Phase.name]

set_option maxRecDepth 100000 in
/-- C2, witness: `STOP` and a line feed received while REFLOWING at 200.0 degrees. -/
theorem stop_command_witness :
    handle_command ⟨200, 220, .REFLOWING, 0, true, ⟨150, 5, 220, 10⟩⟩ (['S', 'T', 'O', 'P'] ++ ['\n']) =
      (⟨200, 25, .COOLING, 0, false, ⟨150, 5, 220, 10⟩⟩, [⟨200, 25, "COOLING", 0⟩]) :=
  stop_command ⟨200, 220, .REFLOWING, 0, true, ⟨150, 5, 220, 10⟩⟩ ['\n'] (by decide)

set_option maxRecDepth 100000 in
/-- C9, failing input: `START;150.0;5;200.0;10` in the initial state gives a
HEATING state at 25.0; a `STOP` received before the first tick sets COOLING with
target 25.0 at 25.0, and every number of ticks leaves that state as it is: the
status stays COOLING and never becomes COMPLETE. -/
theorem stop_at_room_temperature_stalls :
    (run initial_state [.command "START;150.0;5;200.0;10".toList]).oven_status = .HEATING ∧
    ∀ n : Nat,
      oven_simulator_task n
        (run initial_state
          [.command "START;150.0;5;200.0;10".toList, .command ['S', 'T', 'O', 'P']]) =
        ⟨25, 25, .COOLING, 0, false, ⟨150, 5, 200, 10⟩⟩ := by
  refine ⟨by decide!, fun n => ?_⟩
  have hs : run initial_state
      [.command "START;150.0;5;200.0;10".toList, .command ['S', 'T', 'O', 'P']] =
      ⟨25, 25, .COOLING, 0, false, ⟨150, 5, 200, 10⟩⟩ := by decide!
  rw [hs]
  exact task_fixed _ (by decide!) n

set_option maxRecDepth 100000 in
/-- C13, failing input: `STOP`, a line feed and more text in one buffer is handled
as `STOP` (a REFLOWING oven goes to COOLING and a reply is sent), and `STATUS?`, a
carriage return and more text is handled as `STATUS?`: the buffer is cut at the
first line feed or carriage return, wherever it stands. -/
theorem embedded_line_break_runs_command :
    handle_command ⟨200, 220, .REFLOWING, 0, true, ⟨150, 5, 220, 10⟩⟩
        "STOP\nSTATUS?\n".toList =
      (⟨200, 25, .COOLING, 0, false, ⟨150, 5, 220, 10⟩⟩, [⟨200, 25, "COOLING", 0⟩]) ∧
    handle_command initial_state "STATUS?\rxyz".toList =
      (initial_state, [⟨25, 0, "IDLE", 0⟩]) := by
  constructor <;> decide!

/-! ## Simulation tick: frame and order of the branches -/

/-- C14: for every oven state whose status is IDLE or COMPLETE, one tick leaves
the whole state unchanged, whatever the temperatures are. -/
theorem idle_complete_tick_unchanged (s : OvenState)
    (h : s.oven_status = .IDLE ∨ s.oven_status = .COMPLETE) : oven_simulator_tick s = s :=
  tick_idle_or_complete s h

set_option maxRecDepth 100000 in
/-- C14, witness: a COMPLETE state at 500.0 with target 900.0 is left as it is. -/
theorem idle_complete_tick_unchanged_witness :
    oven_simulator_tick ⟨500, 900, .COMPLETE, 7, true, ⟨150, 5, 200, 10⟩⟩ =
      ⟨500, 900, .COMPLETE, 7, true, ⟨150, 5, 200, 10⟩⟩ :=
  idle_complete_tick_unchanged ⟨500, 900, .COMPLETE, 7, true, ⟨150, 5, 200, 10⟩⟩ (Or.inr rfl)

/-! ## Simulation tick: the soak hold -/

set_option maxRecDepth 100000 in
/-- C16, counterexample: `START;150.0;-2147483648;200.0;10` in the initial state and
50 ticks give the SOAKING state at 150.0 with cycle timer -2147483648; the next
tick decrements the timer around to 2147483647 and the status stays SOAKING. -/
theorem soak_time_wraps_counterexample :
    oven_simulator_task 50
        (handle_command initial_state "START;150.0;-2147483648;200.0;10".toList).1 =
      ⟨150, 150, .SOAKING, -2147483648, true, ⟨150, -2147483648, 200, 10⟩⟩ ∧
    oven_simulator_tick ⟨150, 150, .SOAKING, -2147483648, true, ⟨150, -2147483648, 200, 10⟩⟩ =
      ⟨150, 150, .SOAKING, 2147483647, true, ⟨150, -2147483648, 200, 10⟩⟩ := by
  constructor <;> decide!

/-- C16, amended: for every SOAKING state at its target whose cycle timer n is an
`int` above -2147483648: when n >= 1, after each of the first n - 1 ticks the
state is the same except for the timer, which has gone down by one per tick, and
the n-th tick sets the timer to 0, the status to REFLOWING and the target to the
reflow peak; when n <= 0, the first tick sets REFLOWING and the reflow peak. -/
theorem soak_hold_duration (s : OvenState) (hph : s.oven_status = .SOAKING)
    (hat : s.current_temp = s.target_temp) (hlo : INT_MIN < s.cycle_timer)
    (hhi : s.cycle_timer ≤ INT_MAX) :
    (1 ≤ s.cycle_timer →
      (∀ k : Nat, (k : Int) < s.cycle_timer →
        oven_simulator_task k s = { s with cycle_timer := s.cycle_timer - k }) ∧
      oven_simulator_task s.cycle_timer.toNat s =
        { s with cycle_timer := 0, oven_status := .REFLOWING,
                 target_temp := s.active_profile.reflow_peak }) ∧
    (s.cycle_timer ≤ 0 →
      oven_simulator_tick s =
        { s with cycle_timer := s.cycle_timer - 1, oven_status := .REFLOWING,
                 target_temp := s.active_profile.reflow_peak }) := by
  constructor
  · intro h1
    have hcount := soaking_countdown s hph hat hhi
    refine ⟨hcount, ?_⟩
    have hn : s.cycle_timer.toNat = (s.cycle_timer.toNat - 1) + 1 := by omega
    have hk : ((s.cycle_timer.toNat - 1 : Nat) : Int) = s.cycle_timer - 1 := by omega
    rw [hn, task_succ, hcount (s.cycle_timer.toNat - 1) (by omega), hk]
    have hone : s.cycle_timer - (s.cycle_timer - 1) = 1 := by ring
    have hlo1 : INT_MIN < (1 : Int) := by decide
    have hhi1 : (1 : Int) ≤ INT_MAX := by decide
    rw [hone, tick_soaking_hold { s with cycle_timer := 1 } hph hat hlo1 hhi1]
    simp
  · intro h0
    rw [tick_soaking_hold s hph hat hlo hhi, if_pos (by omega)]

set_option maxRecDepth 100000 in
/-- C16, witness: SOAKING at 150.0 with timer 5: still SOAKING with timer 1 after
four ticks, REFLOWING with target 200.0 after the fifth. -/
theorem soak_hold_duration_witness :
    oven_simulator_task 4 ⟨150, 150, .SOAKING, 5, true, ⟨150, 5, 200, 10⟩⟩ =
      ⟨150, 150, .SOAKING, 5 - ((4 : Nat) : Int), true, ⟨150, 5, 200, 10⟩⟩ ∧
    oven_simulator_task (5 : Int).toNat ⟨150, 150, .SOAKING, 5, true, ⟨150, 5, 200, 10⟩⟩ =
      ⟨150, 200, .REFLOWING, 0, true, ⟨150, 5, 200, 10⟩⟩ :=
  have h := (soak_hold_duration ⟨150, 150, .SOAKING, 5, true, ⟨150, 5, 200, 10⟩⟩ rfl rfl
    (by decide) (by decide)).1 (by decide)
  ⟨h.1 4 (by decide), h.2⟩

/-- C18: in every state reached from the initial state by ticks and received
buffers, the target temperature is the one the status stands for (0.0 for IDLE
and COMPLETE, the profile's soak temperature for HEATING and SOAKING, its reflow
peak for REFLOWING, 25.0 for COOLING), and in SOAKING the current temperature is
at the target, so that a tick leaves it as it is. -/
theorem phase_goal_invariant (events : List Event) :
    ((run initial_state events).oven_status = .IDLE ∨
        (run initial_state events).oven_status = .COMPLETE →
      (run initial_state events).target_temp = 0) ∧
    ((run initial_state events).oven_status = .HEATING ∨
        (run initial_state events).oven_status = .SOAKING →
      (run initial_state events).target_temp =
        (run initial_state events).active_profile.soak_temp) ∧
    ((run initial_state events).oven_status = .REFLOWING →
      (run initial_state events).target_temp =
        (run initial_state events).active_profile.reflow_peak) ∧
    ((run initial_state events).oven_status = .COOLING →
      (run initial_state events).target_temp = 25) ∧
    ((run initial_state events).oven_status = .SOAKING →
      (run initial_state events).current_temp = (run initial_state events).target_temp ∧
      (oven_simulator_tick (run initial_state events)).current_temp =
        (run initial_state events).current_temp) := by
  obtain ⟨-, hidle, hheat, hsoak, hreflow, hcool⟩ := consistent_reachable events
  refine ⟨hidle, hheat, hreflow, hcool, fun hph => ⟨hsoak hph, ?_⟩⟩
  have hat := hsoak hph
  have hnlt : ¬ ((run initial_state events).current_temp <
      (run initial_state events).target_temp) := by rw [hat]; exact lt_irrefl _
  have hngt : ¬ ((run initial_state events).current_temp >
      (run initial_state events).target_temp) := by rw [hat]; exact lt_irrefl _
  unfold oven_simulator_tick
  simp only [hph, hnlt, hngt, ne_eq, reduceCtorEq, not_false_eq_true, and_self, if_true,
    if_false]
  split <;> rfl

set_option maxRecDepth 100000 in
/-- C18, witness: after `START;27.5;5;200.0;10` and one tick the oven is SOAKING
and its current temperature equals the target. -/
theorem phase_goal_invariant_witness :
    (run initial_state [.command "START;27.5;5;200.0;10".toList, .tick]).current_temp =
      (run initial_state [.command "START;27.5;5;200.0;10".toList, .tick]).target_temp :=
  ((phase_goal_invariant [.command "START;27.5;5;200.0;10".toList, .tick]).2.2.2.2
    (by decide!)).1

/-- C19: in every state reached from the initial state by ticks and received
buffers, whatever profile values the buffers carry, the current temperature is
at least 25.0. -/
theorem temperature_floor (events : List Event) :
    25 ≤ (run initial_state events).current_temp :=
  (consistent_reachable events).1

/-! ## Stalled runs -/

/-- C20: for every oven state whose status is HEATING or REFLOWING with the current
temperature at or above the target, or COOLING with current temperature and
target both 25.0, one tick leaves the whole state unchanged, and so does any
number of ticks. -/
theorem stalled_states (s : OvenState)
    (h : ((s.oven_status = .HEATING ∨ s.oven_status = .REFLOWING) ∧
            s.target_temp ≤ s.current_temp) ∨
         (s.oven_status = .COOLING ∧ s.current_temp = 25 ∧ s.target_temp = 25)) :
    oven_simulator_tick s = s ∧ ∀ n : Nat, oven_simulator_task n s = s := by
  have htick : oven_simulator_tick s = s := by
    rcases h with ⟨hph, hge⟩ | ⟨hph, hc, ht⟩
    · have hnlt : ¬ (s.current_temp < s.target_temp) := not_lt.mpr hge
      rcases hph with hph | hph <;> simp [oven_simulator_tick, hph, hnlt]
    · exact tick_cooling_at_floor s hph (by rw [hc, ht]) (by rw [hc])
  exact ⟨htick, task_fixed s htick⟩

set_option maxRecDepth 100000 in
/-- C20, witness: the HEATING state left by `START;20.0;60;220.0;30` at 25.0, and
the COOLING state left by `START;150.0;5;200.0;10` followed at once by `STOP`,
are not changed by any number of ticks. -/
theorem stalled_states_witness :
    (∀ n : Nat, oven_simulator_task n (run initial_state
        [.command "START;20.0;60;220.0;30".toList]) =
      run initial_state [.command "START;20.0;60;220.0;30".toList]) ∧
    (∀ n : Nat, oven_simulator_task n (run initial_state
        [.command "START;150.0;5;200.0;10".toList, .command ['S', 'T', 'O', 'P']]) =
      run initial_state
        [.command "START;150.0;5;200.0;10".toList, .command ['S', 'T', 'O', 'P']]) :=
  ⟨(stalled_states (run initial_state [.command "START;20.0;60;220.0;30".toList])
      (Or.inl ⟨Or.inl (by decide!), by decide!⟩)).2,
   (stalled_states (run initial_state
      [.command "START;150.0;5;200.0;10".toList, .command ['S', 'T', 'O', 'P']])
      (Or.inr ⟨by decide!, by decide!, by decide!⟩)).2⟩

end ReflowOven
